import Mathlib

/-!
Verification development for the treescope IPython integration module
(treescope/_internal/api/ipython_integration.py).

The module is glue code over external collaborators (IPython, the treescope
rendering engine, the lowering pipeline, the capability probe
object_inspection.safely_get_real_method, and the scoped context values).
We embed the module shallowly: a displayed value is modelled by the boolean
verdicts of the capability probe on it, external calls are recorded as an
effect trace, and the returned object is modelled by a constructor recording
which external call produced it and with which flags.
-/

set_option autoImplicit false

namespace Treescope

/-- The facts about a displayed Python value that the dispatch policy
_render_for_ipython inspects: the verdicts of the capability probe
(safely_get_real_method, which finds only genuine non-inherited methods and
whose result, a bound method, is truthy exactly when present) for each of the
four special method names, and whether the value is an instance of
IPython.display.DisplayObject. -/
structure PyValue where
  has_repr_html : Bool
  is_display_object : Bool
  has_repr_pretty : Bool
  has_treescope_repr : Bool
  has_treescope_root_repr : Bool
deriving DecidableEq, Repr

/-- Where the foldable intermediate representation built on the custom
rendering path came from: the zero-argument
__treescope_root_repr__ method, used directly, or the external engine call
default_renderer.build_foldable_representation with its ignore_exceptions
flag. -/
inductive FoldableSource where
  | fromRootRepr : FoldableSource
  | fromEngine : Bool → FoldableSource
deriving DecidableEq, Repr

/-- External calls performed by _render_for_ipython, in order. -/
inductive RenderEffect where
  | call_repr_html : RenderEffect
  | enter_collecting_deferred_renderings : RenderEffect
  | call_treescope_root_repr : RenderEffect
  | build_foldable_representation : Bool → RenderEffect
  | display_streaming_as_root : Bool → Bool → RenderEffect
  | render_to_html_as_root : Bool → RenderEffect
deriving DecidableEq, Repr

/-- Everything except the call to the own _repr_html_ method of the value is part
of the custom (treescope) rendering machinery. -/
def RenderEffect.is_custom_rendering : RenderEffect → Bool
  | .call_repr_html => false
  | _ => true

/-- The value _render_for_ipython returns to IPython: the string produced by
the own _repr_html_ method of the value, the stealable output handle produced by
lowering.display_streaming_as_root (carrying its stealable flag and the
source of the foldable representation it serialized), or the final HTML
string produced by lowering.render_to_html_as_root (carrying the compressed
flag and the foldable source). -/
inductive RenderResult where
  | native_html : RenderResult
  | output_stealer : Bool → FoldableSource → RenderResult
  | final_html : Bool → FoldableSource → RenderResult
deriving DecidableEq, Repr

/-- Control-flow outcome of one call to _render_for_ipython: either a Python
return (None modelled as Option.none) or a failure of the assert statement
guarding the non-streaming branch. -/
inductive Outcome where
  | returns : Option RenderResult → Outcome
  | assert_failure : Outcome
deriving DecidableEq, Repr

/-- The source of the foldable representation serialized by the returned
object, when the custom path produced one. -/
def Outcome.foldable_source : Outcome → Option FoldableSource
  | .returns (some (.output_stealer _ src)) => some src
  | .returns (some (.final_html _ src)) => some src
  | _ => none

/-- The stealable flag of the returned output handle, when the streaming
path produced one. -/
def Outcome.returned_stealable : Outcome → Option Bool
  | .returns (some (.output_stealer st _)) => some st
  | _ => none

/-- The compressed flag of the returned final HTML string, when the
non-streaming custom path produced one. -/
def Outcome.final_html_compressed : Outcome → Option Bool
  | .returns (some (.final_html co _)) => some co
  | _ => none

/-- Shallow embedding of _render_for_ipython (ipython_integration.py lines
144 to 206), the closure registered by register_as_default with the
streaming and compress_html options captured at registration time.
The code, in order:
1. if the value has a genuine _repr_html_ method, return its result;
2. elif the value is a DisplayObject, or has a genuine _repr_pretty_ and
   has neither __treescope_repr__ nor __treescope_root_repr__, return None;
3. else: under streaming, enter lowering.collecting_deferred_renderings as
   deferreds, otherwise deferreds is None; build the foldable representation
   from __treescope_root_repr__ when present, else from
   default_renderer.build_foldable_representation with ignore_exceptions set
   to True; under streaming, call lowering.display_streaming_as_root with
   stealable True and return the resulting handle; otherwise assert that
   deferreds is None and return lowering.render_to_html_as_root. -/
def render_for_ipython (streaming compress_html : Bool) (value : PyValue) :
    Outcome × List RenderEffect :=
  if value.has_repr_html then
    (.returns (some .native_html), [.call_repr_html])
  else if value.is_display_object ||
      (value.has_repr_pretty &&
        !(value.has_treescope_repr || value.has_treescope_root_repr)) then
    (.returns none, [])
  else
    let deferreds : Option Unit := if streaming then some () else none
    let enter_effects : List RenderEffect :=
      if streaming then [.enter_collecting_deferred_renderings] else []
    let source : FoldableSource :=
      if value.has_treescope_root_repr then .fromRootRepr else .fromEngine true
    let build_effects : List RenderEffect :=
      if value.has_treescope_root_repr then [.call_treescope_root_repr]
      else [.build_foldable_representation true]
    if streaming then
      (.returns (some (.output_stealer true source)),
        enter_effects ++ build_effects ++
          [.display_streaming_as_root true compress_html])
    else if deferreds = none then
      (.returns (some (.final_html compress_html source)),
        enter_effects ++ build_effects ++
          [.render_to_html_as_root compress_html])
    else
      (.assert_failure, enter_effects ++ build_effects)

/-- Claim C1: a value with a genuine non-inherited _repr_html_ method is
rendered by deferring to that method alone: the policy returns the native
HTML result and the only external call it makes is the call to _repr_html_
itself, never any part of the custom rendering machinery, whatever the other
capabilities of the value and the registration options. -/
theorem claim1_native_html_defers (s ch : Bool) (v : PyValue)
    (h : v.has_repr_html = true) :
    render_for_ipython s ch v =
      (.returns (some .native_html), [.call_repr_html]) ∧
    ∀ e ∈ (render_for_ipython s ch v).2, e.is_custom_rendering = false := by
  rcases v with ⟨a, b, p, t, r⟩
  cases a
  · exact Bool.noConfusion h
  · cases b <;> cases p <;> cases t <;> cases r <;> cases s <;> cases ch <;>
      exact ⟨rfl, by decide⟩

/-- Witness for claim C1 at a value having every capability at once. -/
theorem claim1_native_html_defers_witness :
    render_for_ipython true true ⟨true, true, true, true, true⟩ =
      (.returns (some .native_html), [.call_repr_html]) ∧
    ∀ e ∈ (render_for_ipython true true ⟨true, true, true, true, true⟩).2,
      e.is_custom_rendering = false :=
  claim1_native_html_defers true true ⟨true, true, true, true, true⟩ rfl

/-- Claim C2: for a value without a genuine _repr_html_ method, the policy
returns None (suppressing custom rendering and falling through to host
defaults) exactly when the value is a DisplayObject, or it has a genuine
_repr_pretty_ method and has neither __treescope_root_repr__ nor
__treescope_repr__. -/
theorem claim2_suppression_condition (s ch : Bool) (v : PyValue)
    (h : v.has_repr_html = false) :
    (render_for_ipython s ch v).1 = .returns none ↔
      (v.is_display_object = true ∨
        (v.has_repr_pretty = true ∧ v.has_treescope_root_repr = false ∧
          v.has_treescope_repr = false)) := by
  rcases v with ⟨a, b, p, t, r⟩
  cases a
  · cases b <;> cases p <;> cases t <;> cases r <;> cases s <;> cases ch <;>
      decide
  · exact Bool.noConfusion h

/-- Witness for claim C2 at a value with only a genuine _repr_pretty_. -/
theorem claim2_suppression_condition_witness :
    (render_for_ipython true true
        ⟨false, false, true, false, false⟩).1 = .returns none ↔
      ((false : Bool) = true ∨
        ((true : Bool) = true ∧ (false : Bool) = false ∧
          (false : Bool) = false)) :=
  claim2_suppression_condition true true ⟨false, false, true, false, false⟩ rfl

/-- Claim C3: on the custom-rendering path (the value has no genuine
_repr_html_ and does not meet the suppression condition), the foldable
representation comes from the zero-argument __treescope_root_repr__
method used directly when that capability is present, in which case the
external engine is never asked to build one; otherwise it comes from
default_renderer.build_foldable_representation invoked with
ignore_exceptions set to True, so that subtree failures are wrapped as
inline error markers by the engine instead of propagating. -/
theorem claim3_custom_path_foldable_source (s ch : Bool) (v : PyValue)
    (h1 : v.has_repr_html = false)
    (h2 : (v.is_display_object ||
      (v.has_repr_pretty &&
        !(v.has_treescope_repr || v.has_treescope_root_repr))) = false) :
    (v.has_treescope_root_repr = true →
      RenderEffect.call_treescope_root_repr ∈ (render_for_ipython s ch v).2 ∧
      (∀ ie, RenderEffect.build_foldable_representation ie ∉
        (render_for_ipython s ch v).2) ∧
      (render_for_ipython s ch v).1.foldable_source = some .fromRootRepr) ∧
    (v.has_treescope_root_repr = false →
      RenderEffect.build_foldable_representation true ∈
        (render_for_ipython s ch v).2 ∧
      RenderEffect.call_treescope_root_repr ∉ (render_for_ipython s ch v).2 ∧
      (render_for_ipython s ch v).1.foldable_source =
        some (.fromEngine true)) := by
  rcases v with ⟨a, b, p, t, r⟩
  cases a
  · cases b <;> cases p <;> cases t <;> cases r <;> cases s <;> cases ch <;>
      first
      | exact Bool.noConfusion h2
      | decide
  · exact Bool.noConfusion h1

/-- Witness for claim C3 at a value with a __treescope_root_repr__ method. -/
theorem claim3_custom_path_foldable_source_witness :
    ((true : Bool) = true →
      RenderEffect.call_treescope_root_repr ∈
        (render_for_ipython true true ⟨false, false, false, false, true⟩).2 ∧
      (∀ ie, RenderEffect.build_foldable_representation ie ∉
        (render_for_ipython true true ⟨false, false, false, false, true⟩).2) ∧
      (render_for_ipython true true
        ⟨false, false, false, false, true⟩).1.foldable_source =
          some .fromRootRepr) ∧
    ((true : Bool) = false →
      RenderEffect.build_foldable_representation true ∈
        (render_for_ipython true true ⟨false, false, false, false, true⟩).2 ∧
      RenderEffect.call_treescope_root_repr ∉
        (render_for_ipython true true ⟨false, false, false, false, true⟩).2 ∧
      (render_for_ipython true true
        ⟨false, false, false, false, true⟩).1.foldable_source =
          some (.fromEngine true)) :=
  claim3_custom_path_foldable_source true true ⟨false, false, false, false, true⟩
    rfl rfl

/-- Claim C4: on the custom-rendering path, when streaming was enabled at
registration time the policy returns the output handle produced by
lowering.display_streaming_as_root called with stealable True; when
streaming was disabled it instead returns the final HTML string produced
synchronously by lowering.render_to_html_as_root, and never calls
display_streaming_as_root. -/
theorem claim4_streaming_vs_sync_return (s ch : Bool) (v : PyValue)
    (h1 : v.has_repr_html = false)
    (h2 : (v.is_display_object ||
      (v.has_repr_pretty &&
        !(v.has_treescope_repr || v.has_treescope_root_repr))) = false) :
    (s = true →
      (render_for_ipython s ch v).1.returned_stealable = some true ∧
      RenderEffect.display_streaming_as_root true ch ∈
        (render_for_ipython s ch v).2) ∧
    (s = false →
      (render_for_ipython s ch v).1.final_html_compressed = some ch ∧
      RenderEffect.render_to_html_as_root ch ∈ (render_for_ipython s ch v).2 ∧
      (∀ st co, RenderEffect.display_streaming_as_root st co ∉
        (render_for_ipython s ch v).2)) := by
  rcases v with ⟨a, b, p, t, r⟩
  cases a
  · cases b <;> cases p <;> cases t <;> cases r <;> cases s <;> cases ch <;>
      first
      | exact Bool.noConfusion h2
      | decide
  · exact Bool.noConfusion h1

/-- Witness for claim C4 at a value with no capabilities, streaming on. -/
theorem claim4_streaming_vs_sync_return_witness :
    ((true : Bool) = true →
      (render_for_ipython true false
        ⟨false, false, false, false, false⟩).1.returned_stealable =
          some true ∧
      RenderEffect.display_streaming_as_root true false ∈
        (render_for_ipython true false ⟨false, false, false, false, false⟩).2) ∧
    ((true : Bool) = false →
      (render_for_ipython true false
        ⟨false, false, false, false, false⟩).1.final_html_compressed =
          some false ∧
      RenderEffect.render_to_html_as_root false ∈
        (render_for_ipython true false ⟨false, false, false, false, false⟩).2 ∧
      (∀ st co, RenderEffect.display_streaming_as_root st co ∉
        (render_for_ipython true false
          ⟨false, false, false, false, false⟩).2)) :=
  claim4_streaming_vs_sync_return true false ⟨false, false, false, false, false⟩
    rfl rfl

/-- Claim C10: when streaming is disabled, the deferred-rendering
collection is never created (the deferreds variable holds None), so the
assert statement guarding the non-streaming branch cannot fail for any
displayed value. -/
theorem claim10_assert_never_fails (ch : Bool) (v : PyValue) :
    (render_for_ipython false ch v).1 ≠ Outcome.assert_failure := by
  rcases v with ⟨a, b, p, t, r⟩
  cases a <;> cases b <;> cases p <;> cases t <;> cases r <;> cases ch <;>
    decide

/-- External calls performed by the public entry points, used to record that
an entry point that raises performs no host action. -/
inductive HostCall where
  | render_to_html : Bool → Bool → Bool → HostCall
  | ipython_display : HostCall
  | register_magics : HostCall
deriving DecidableEq, Repr

/-- Shallow embedding of the display entry point (lines 40 to 69): raises
RuntimeError when IPython is absent, before any other action; otherwise
renders the value via default_renderer.render_to_html with the given
ignore_exceptions and roundtrip_mode flags and compressed True, and hands
the HTML to IPython.display.display. -/
def display (ipython_available ignore_exceptions roundtrip_mode : Bool) :
    Except String (List HostCall) :=
  if ipython_available = false then
    .error "Cannot use `display` outside of IPython."
  else
    .ok [.render_to_html ignore_exceptions roundtrip_mode true,
      .ipython_display]

/-- Shallow embedding of the show entry point (lines 72 to 94; named show in
the source, which is a keyword in Lean): raises RuntimeError when IPython is
absent, before any other action; otherwise displays the inline figure built
from the arguments. -/
def show_fn (ipython_available _wrap _space_separated : Bool) :
    Except String (List HostCall) :=
  if ipython_available = false then
    .error "Cannot use `show` outside of IPython."
  else
    .ok [.ipython_display]

/-- The formatter-reordering step of register_as_default (lines 230 to 235):
the formatters dict is rebuilt with the text/html entry first, followed by
every other entry of the old dict in its original order. -/
def reordered_formatters {α : Type} (fs : List (String × α)) (cur_html : α) :
    List (String × α) :=
  ("text/html", cur_html) :: fs.filter (fun kv => kv.1 != "text/html")

/-- Shallow embedding of register_as_default (lines 97 to 250) acting on the
host formatter registry, modelled as an association list from MIME keys to
formatter objects (an opaque type, since the code keeps the existing
formatter objects and only registers new per-type callbacks on them in
place). It raises RuntimeError when IPython is absent, before any other
action; otherwise it reads the current text/html formatter (a KeyError if
absent), registers the render_for_ipython closure on it in place, and
rebuilds the registry with the text/html entry first. -/
def register_as_default {α : Type} (ipython_available : Bool)
    (fs : List (String × α)) : Except String (List (String × α)) :=
  if ipython_available = false then
    .error "Cannot use `register_as_default` outside of IPython."
  else
    match fs.lookup "text/html" with
    | none => .error "KeyError: text/html"
    | some cur_html => .ok (reordered_formatters fs cur_html)

/-- Shallow embedding of register_autovisualize_magic (lines 363 to 376):
raises RuntimeError when IPython is absent, before any other action;
otherwise registers the AutovisualizerMagic class with the shell. -/
def register_autovisualize_magic (ipython_available : Bool) :
    Except String (List HostCall) :=
  if ipython_available = false then
    .error "Cannot use `register_autovisualize_magic` outside of IPython."
  else
    .ok [.register_magics]

/-- Shallow embedding of register_context_manager_magic (lines 379 to 392):
raises RuntimeError when IPython is absent, before any other action;
otherwise registers the ContextManagerMagic class with the shell. -/
def register_context_manager_magic (ipython_available : Bool) :
    Except String (List HostCall) :=
  if ipython_available = false then
    .error "Cannot use `register_context_manager_magic` outside of IPython."
  else
    .ok [.register_magics]

/-- Looking a key up in the registry after discarding the text/html entries
gives the same answer as in the original registry, for any key other than
text/html, because entries with other keys all survive the filter in
order. -/
theorem lookup_filter_not_html {α : Type} (k : String) (h : k ≠ "text/html") :
    ∀ fs : List (String × α),
      (fs.filter (fun kv => kv.1 != "text/html")).lookup k = fs.lookup k := by
  intro fs
  induction fs with
  | nil => rfl
  | cons hd tl ih =>
    obtain ⟨a, v⟩ := hd
    by_cases hx : a = "text/html"
    · have hka : (k == a) = false := beq_eq_false_iff_ne.mpr (hx ▸ h)
      have hfa : ((a, v).1 != "text/html") = false := by simp [hx]
      simp [List.filter_cons, hfa, List.lookup_cons, hka, ih]
    · have hfa : ((a, v).1 != "text/html") = true := by simp [hx]
      simp [List.filter_cons, hfa, List.lookup_cons, ih]

/-- Claim C5: register_as_default rebuilds the formatter registry with the
text/html entry first while keeping every other entry: the first entry of
the new registry is the text/html formatter that was already registered,
lookups of every key are unchanged, every non-text/html entry of the old
registry is still present, and the non-text/html entries keep their
relative order. -/
theorem claim5_reorder_preserves_formatters {α : Type}
    (fs : List (String × α)) (cur_html : α)
    (hl : fs.lookup "text/html" = some cur_html) :
    ∃ new, register_as_default true fs = .ok new ∧
      new.head? = some ("text/html", cur_html) ∧
      (∀ k, new.lookup k = fs.lookup k) ∧
      (∀ kv ∈ fs, kv.1 ≠ "text/html" → kv ∈ new) ∧
      new.filter (fun kv => kv.1 != "text/html") =
        fs.filter (fun kv => kv.1 != "text/html") := by
  refine ⟨reordered_formatters fs cur_html, ?_, rfl, ?_, ?_, ?_⟩
  · simp [register_as_default, hl]
  · intro k
    by_cases hk : k = "text/html"
    · subst hk
      simp [reordered_formatters, List.lookup, hl]
    · have hk2 : (k == "text/html") = false := by
        simpa using hk
      simp [reordered_formatters, List.lookup, hk2,
        lookup_filter_not_html k hk fs]
  · intro kv hmem hne
    refine List.mem_cons_of_mem _ ?_
    refine List.mem_filter.mpr ⟨hmem, ?_⟩
    simpa using hne
  · simp [reordered_formatters, List.filter_filter]

/-- Witness for claim C5 at a three-entry registry with text/html in the
middle. -/
theorem claim5_reorder_preserves_formatters_witness :
    ∃ new, register_as_default true
        [("text/plain", 10), ("text/html", 20), ("image/png", 30)] =
          .ok new ∧
      new.head? = some ("text/html", 20) ∧
      (∀ k, new.lookup k =
        [("text/plain", 10), ("text/html", 20), ("image/png", 30)].lookup k) ∧
      (∀ kv ∈ [("text/plain", 10), ("text/html", 20), ("image/png", 30)],
        kv.1 ≠ "text/html" → kv ∈ new) ∧
      new.filter (fun kv => kv.1 != "text/html") =
        [("text/plain", 10), ("text/html", 20),
          ("image/png", 30)].filter (fun kv => kv.1 != "text/html") :=
  claim5_reorder_preserves_formatters
    [("text/plain", 10), ("text/html", 20), ("image/png", 30)] 20 (by decide)

/-- Claim C8: each public entry point that needs the host environment
(display, show, register_as_default, register_autovisualize_magic,
register_context_manager_magic) raises the corresponding RuntimeError as
its first action when IPython is absent, whatever its other arguments,
performing no host call. -/
theorem claim8_host_unavailable_errors (ie rt wrap ss : Bool)
    (fs : List (String × Nat)) :
    display false ie rt = .error "Cannot use `display` outside of IPython." ∧
    show_fn false wrap ss = .error "Cannot use `show` outside of IPython." ∧
    register_as_default false fs =
      .error "Cannot use `register_as_default` outside of IPython." ∧
    register_autovisualize_magic false =
      .error "Cannot use `register_autovisualize_magic` outside of IPython." ∧
    register_context_manager_magic false =
      .error "Cannot use `register_context_manager_magic` outside of IPython." :=
  ⟨rfl, rfl, rfl, rfl, rfl⟩

/-- Autovisualizers receive a Python value and a path and return a
visualization or None; all three are opaque to this module, so they are
modelled by an unspecified countable carrier. -/
abbrev Autovisualizer : Type := Nat → Nat → Option Nat

/-- The no-op autovisualizer the autovisualize magic substitutes for an
absent one (line 321 of the source): lambda value, path: None. -/
def noop_autovisualizer : Autovisualizer := fun _ _ => none

/-- Modelled from the spec: treescope.context.ContextualValue (the Scoped
Context Value of spec section 4.1; its source file is not under src). A
named slot holding a permanent value and an ordered stack of temporary
overrides; exactly one value is current at any time. -/
structure ContextualValue (α : Type) where
  initial_value : α
  override_stack : List α

/-- Modelled from the spec: get returns the innermost still-active override,
or the permanent value when no override is active. -/
def ContextualValue.get {α : Type} (c : ContextualValue α) : α :=
  c.override_stack.headD c.initial_value

/-- Modelled from the spec: entering a set_scoped scope pushes the override
onto the stack. -/
def ContextualValue.push_scoped {α : Type} (c : ContextualValue α) (v : α) :
    ContextualValue α :=
  { c with override_stack := v :: c.override_stack }

/-- Modelled from the spec: leaving a set_scoped scope pops exactly the
entry it pushed, regardless of how control leaves the scope. -/
def ContextualValue.pop_scoped {α : Type} (c : ContextualValue α) :
    ContextualValue α :=
  { c with override_stack := c.override_stack.tail }

/-- Python str.strip() as used by the truthiness test on line 314 of the
source: the characters of the line with leading and trailing whitespace
removed. -/
def py_strip (line : String) : List Char :=
  ((line.data.dropWhile Char.isWhitespace).reverse.dropWhile
    Char.isWhitespace).reverse

/-- How the cell body handed to shell.run_cell finishes: normal completion
or an exception raised inside the body. The with statement around run_cell
exits its context on either path. -/
inductive CellOutcome where
  | completed : CellOutcome
  | raised : CellOutcome
deriving DecidableEq, Repr

/-- Record of one run of the autovisualize cell magic: the control-flow
result, the visualizer actually installed for the cell body (none when the
scope was never entered), the state of the active-autovisualizer context
value after the magic returns, and whether the cell body was executed. -/
structure MagicRun where
  result : Except String Unit
  installed : Option Autovisualizer
  final_active : ContextualValue Autovisualizer
  cell_ran : Bool

/-- The with-statement body of the autovisualize magic (lines 322 to 323):
push the chosen visualizer onto the active-autovisualizer context value,
run the cell, and pop the override on every exit path of the body. -/
def run_cell_scoped (active : ContextualValue Autovisualizer)
    (av : Autovisualizer) (outcome : CellOutcome) : MagicRun :=
  let entered := active.push_scoped av
  match outcome with
  | .completed => ⟨.ok (), some av, entered.pop_scoped, true⟩
  | .raised => ⟨.ok (), some av, entered.pop_scoped, true⟩

/-- Shallow embedding of AutovisualizerMagic.autovisualize (lines 268 to
323). The shell collaborators are modelled by their outcomes: ev is the
result of evaluating the line in the scope of the caller (an exception or a
value, possibly None), and outcome is how the cell body finishes. When the
stripped line is non-empty the line is evaluated and an evaluation error
propagates unchanged, with no scope entered and no cell run; otherwise the
default is read from the default_magic_autovisualizer context value; a None
visualizer is replaced by the no-op one; the chosen visualizer is installed
as a scoped override of the active-autovisualizer context value around
shell.run_cell. -/
def autovisualize_magic (active : ContextualValue Autovisualizer)
    (default_magic : ContextualValue (Option Autovisualizer))
    (line : String) (ev : Except String (Option Autovisualizer))
    (outcome : CellOutcome) : MagicRun :=
  if py_strip line != [] then
    match ev with
    | .error e => ⟨.error e, none, active, false⟩
    | .ok a => run_cell_scoped active (a.getD noop_autovisualizer) outcome
  else
    run_cell_scoped active
      (default_magic.get.getD noop_autovisualizer) outcome

/-- Record of one run of the with cell magic: the control-flow result and
whether the context manager was entered, the cell body executed, and the
context exited. -/
structure WithRun where
  result : Except String Unit
  scope_entered : Bool
  cell_ran : Bool
  scope_exited : Bool

/-- Shallow embedding of ContextManagerMagic.with_ (lines 329 to 356): the
line is evaluated to a context manager with no handling around the
evaluation, so an evaluation error propagates unchanged and neither the
scope nor the cell body runs; otherwise the cell body runs inside the
context, which exits on every path. -/
def with_magic (ev : Except String Unit) (outcome : CellOutcome) : WithRun :=
  match ev with
  | .error e => ⟨.error e, false, false, false⟩
  | .ok _ =>
    match outcome with
    | .completed => ⟨.ok (), true, true, true⟩
    | .raised => ⟨.ok (), true, true, true⟩

/-- Claim C6: when the stripped line is non-empty the visualizer installed
for the cell is the result of evaluating the line (the no-op one if that
result is None); when the line is empty it is the value read from the
default_magic_autovisualizer context value (the no-op one if that is None);
and the substituted no-op visualizer returns None for every value and
path. -/
theorem claim6_autovisualizer_choice (l₁ l₂ : String)
    (a : Option Autovisualizer)
    (dm : ContextualValue (Option Autovisualizer))
    (active : ContextualValue Autovisualizer) (oc : CellOutcome)
    (h₁ : py_strip l₁ ≠ []) (h₂ : py_strip l₂ = []) :
    (autovisualize_magic active dm l₁ (.ok a) oc).installed =
      some (a.getD noop_autovisualizer) ∧
    (autovisualize_magic active dm l₂ (.ok a) oc).installed =
      some (dm.get.getD noop_autovisualizer) ∧
    ∀ v p, noop_autovisualizer v p = none := by
  refine ⟨?_, ?_, fun v p => rfl⟩
  · have hb : (py_strip l₁ != []) = true := bne_iff_ne.mpr h₁
    cases oc <;> simp [autovisualize_magic, run_cell_scoped, hb]
  · have hb : (py_strip l₂ != []) = false := by simp [h₂]
    cases oc <;> simp [autovisualize_magic, run_cell_scoped, hb]

/-- Witness for claim C6 at a non-empty line evaluating to None and an
empty line with an empty default slot. -/
theorem claim6_autovisualizer_choice_witness :
    (autovisualize_magic ⟨noop_autovisualizer, []⟩ ⟨none, []⟩ "my_vis"
      (.ok none) .completed).installed =
        some (Option.getD none noop_autovisualizer) ∧
    (autovisualize_magic ⟨noop_autovisualizer, []⟩ ⟨none, []⟩ ""
      (.ok none) .completed).installed =
        some (Option.getD (ContextualValue.get ⟨none, []⟩)
          noop_autovisualizer) ∧
    ∀ v p, noop_autovisualizer v p = none :=
  claim6_autovisualizer_choice "my_vis" "" none ⟨none, []⟩
    ⟨noop_autovisualizer, []⟩ .completed (by decide) rfl

/-- Claim C7: the autovisualize magic installs its visualizer only for the
duration of the cell body; on every exit path the override is popped, so
the active-autovisualizer context value is restored to its pre-cell state
and its get returns the pre-cell value. -/
theorem claim7_scope_restored_after_cell
    (active : ContextualValue Autovisualizer)
    (dm : ContextualValue (Option Autovisualizer)) (line : String)
    (ev : Except String (Option Autovisualizer)) (oc : CellOutcome) :
    (autovisualize_magic active dm line ev oc).final_active = active ∧
    (autovisualize_magic active dm line ev oc).final_active.get =
      active.get := by
  have h : (autovisualize_magic active dm line ev oc).final_active =
      active := by
    cases hb : (py_strip line != []) <;> cases ev <;> cases oc <;>
      simp [autovisualize_magic, run_cell_scoped, hb,
        ContextualValue.pop_scoped, ContextualValue.push_scoped]
  exact ⟨h, by rw [h]⟩

/-- Claim C9: when the expression on a non-empty magic line fails to
evaluate, the error propagates unchanged from both magics, no scope is
entered, the active-autovisualizer context value is untouched, and the cell
body never runs. -/
theorem claim9_eval_error_propagates (e : String) (oc : CellOutcome)
    (line : String) (active : ContextualValue Autovisualizer)
    (dm : ContextualValue (Option Autovisualizer))
    (h : py_strip line ≠ []) :
    with_magic (.error e) oc = ⟨.error e, false, false, false⟩ ∧
    (autovisualize_magic active dm line (.error e) oc).result = .error e ∧
    (autovisualize_magic active dm line (.error e) oc).cell_ran = false ∧
    (autovisualize_magic active dm line (.error e) oc).installed = none ∧
    (autovisualize_magic active dm line (.error e) oc).final_active =
      active := by
  have hb : (py_strip line != []) = true := bne_iff_ne.mpr h
  exact ⟨rfl, by simp [autovisualize_magic, hb], by
    simp [autovisualize_magic, hb], by simp [autovisualize_magic, hb], by
    simp [autovisualize_magic, hb]⟩

/-- Witness for claim C9 at a concrete failing expression line. -/
theorem claim9_eval_error_propagates_witness :
    with_magic (.error "NameError") .completed =
      ⟨.error "NameError", false, false, false⟩ ∧
    (autovisualize_magic ⟨noop_autovisualizer, []⟩ ⟨none, []⟩ "bad_expr"
      (.error "NameError") .completed).result = .error "NameError" ∧
    (autovisualize_magic ⟨noop_autovisualizer, []⟩ ⟨none, []⟩ "bad_expr"
      (.error "NameError") .completed).cell_ran = false ∧
    (autovisualize_magic ⟨noop_autovisualizer, []⟩ ⟨none, []⟩ "bad_expr"
      (.error "NameError") .completed).installed = none ∧
    (autovisualize_magic ⟨noop_autovisualizer, []⟩ ⟨none, []⟩ "bad_expr"
      (.error "NameError") .completed).final_active =
        ⟨noop_autovisualizer, []⟩ :=
  claim9_eval_error_propagates "NameError" .completed "bad_expr"
    ⟨noop_autovisualizer, []⟩ ⟨none, []⟩ (by decide)

end Treescope
